import Mathlib

/-
Verification of scripts/tag-release.mjs (release-tagging runner).

The script is embedded shallowly as an event-trace semantics:

  let exec = promisify(execSync);
  async function main(tag) {
    let publishSummary = JSON.parse(
      await readFile(new URL("../lerna-publish-summary.json", import.meta.url).pathname, "utf8"));
    await Promise.all(
      publishSummary.map(({packageName, version}) => {
        exec(`npm dist-tag add ${packageName}@${version} ${tag}`, {encoding: "utf8"});
      }));
  }
  let { tag } = program.option("--tag <tag>", ...).parse(process.argv);
  if (!tag) { throw new Error("Required option `tag` not specified"); }
  main(tag);

Modelling decisions, each justified by Node.js semantics:
  - child_process.execSync(cmd, opts) spawns the child and BLOCKS until the
    child has fully closed; it throws when the child exits non-zero.  The
    trace of one call is therefore [spawn cmd, complete cmd ok]: completion
    is observed (waited for) by the runner before the call returns.
  - util.promisify(f) wraps f so that the call f(...args, callback) runs
    inside a Promise executor.  execSync ignores the extra callback
    argument (its arity is (command[, options])) and never invokes it, so
    on success the resulting promise stays pending forever; a synchronous
    throw inside the executor rejects the promise, so on child failure the
    promise is rejected and the wrapped call itself returns normally.
  - The arrow function passed to publishSummary.map has a block body with
    no return statement, so it evaluates to undefined; the promise made by
    exec is discarded.  Promise.all over an array of plain (non-promise)
    undefined values resolves immediately with those values.
  - JS object destructuring of a field that is absent yields undefined,
    and a template literal renders undefined as the text "undefined".
  - new URL("../lerna-publish-summary.json", import.meta.url).pathname
    resolves the relative reference against the URL of the script file:
    the last path segment of the base is dropped, ".." pops one more
    segment, then the file name is appended -- one directory above the
    directory containing the script.

External inputs are parameters: the on-disk state of the summary file
(SummaryFile), the exit behaviour of each shell command (fails), the CLI
tag option (Option String), and the directory holding the repository
(baseDir).  The trace records every externally visible action; the Except
result models process exit (ok = exit 0, error = thrown/rejected, which
Node turns into a non-zero exit).
-/

set_option autoImplicit false

namespace TagRelease

/-- One element of the parsed publish summary.  A JS object field that may
be absent is an `Option String`; `none` destructures to undefined. -/
structure PublishSummaryEntry where
  packageName : Option String
  version : Option String
deriving DecidableEq, Repr

/-- The state of the `lerna-publish-summary.json` file as the script finds
it: unreadable (missing file, readFile rejects), readable but not valid
JSON (JSON.parse throws), or a parsed JSON array of entries. -/
inductive SummaryFile where
  | unreadable
  | invalidJson
  | json (entries : List PublishSummaryEntry)
deriving DecidableEq, Repr

/-- Externally visible actions of the runner, in program order.
`complete cmd exitOk` records that the runner waited for the child running
`cmd` to close (execSync blocks), with `exitOk = false` for a non-zero
exit.  `readEnv` is never emitted by this script; it is in the alphabet so
that "no environment variable is read" is a statement about traces. -/
inductive Event where
  | readFile (path : String)
  | spawn (cmd : String)
  | complete (cmd : String) (exitOk : Bool)
  | readEnv (name : String)
deriving DecidableEq, Repr

/-- The state of the promise produced by `promisify(execSync)`: pending
forever (execSync never invokes the appended callback) or rejected (a
synchronous throw inside the Promise executor). -/
inductive PromiseState where
  | pending
  | rejected
deriving DecidableEq, Repr

/-- The JS value `undefined`, the result of the block-bodied arrow
function passed to `map`. -/
inductive JsUndefined where
  | undef
deriving DecidableEq, Repr

/-- The ways a run terminates abnormally: a top-level `throw new Error`
with its message, a rejected readFile, or a JSON.parse throw.  Any of
these makes the Node process exit non-zero. -/
inductive RunError where
  | thrownError (message : String)
  | summaryRead
  | summaryParse
deriving DecidableEq, Repr

/-- Rendering of a possibly-undefined JS value inside a template literal:
a string renders as itself, undefined renders as "undefined". -/
def jsTemplateString (v : Option String) : String :=
  match v with
  | some s => s
  | none => "undefined"

/-- The template literal of main:
`npm dist-tag add ${packageName}@${version} ${tag}`.  No escaping,
quoting, or validation is applied to any of the three parts. -/
def commandString (packageName version : Option String) (tag : String) : String :=
  "npm dist-tag add " ++ jsTemplateString packageName ++ "@" ++ jsTemplateString version
    ++ " " ++ tag

/-- One step of WHATWG URL path resolution over segments: ".." pops the
last segment, "." is skipped, anything else is appended. -/
def urlStep (acc : List String) (seg : String) : List String :=
  if seg = ".." then acc.dropLast
  else if seg = "." then acc
  else acc ++ [seg]

/-- Resolution of a relative path reference against a base URL path: the
last segment of the base is dropped, then the relative segments are
processed in order. -/
def resolveURLPath (base rel : List String) : List String :=
  rel.foldl urlStep base.dropLast

/-- Rendering of URL path segments as the `.pathname` string. -/
def pathString (segs : List String) : String :=
  "/" ++ String.intercalate "/" segs

/-- Path segments of the script file itself (`import.meta.url`): the
repository lives at `baseDir` and the script is `scripts/tag-release.mjs`
inside it. -/
def scriptFileSegments (baseDir : List String) : List String :=
  baseDir ++ ["scripts", "tag-release.mjs"]

/-- The pathname of
`new URL("../lerna-publish-summary.json", import.meta.url)`. -/
def summaryPath (baseDir : List String) : String :=
  pathString (resolveURLPath (scriptFileSegments baseDir)
    ["..", "lerna-publish-summary.json"])

/-- child_process.execSync: spawns the shell command, blocks until the
child closes (both events are emitted by the one call, in order), returns
normally on exit 0 and throws on a non-zero exit.  `fails cmd = true`
means the external command `cmd` exits non-zero on this run. -/
def execSync (fails : String → Bool) (cmd : String) :
    List Event × Except String Unit :=
  ([Event.spawn cmd, Event.complete cmd (! fails cmd)],
   if fails cmd then Except.error ("Command failed: " ++ cmd) else Except.ok ())

/-- `let exec = promisify(execSync)`: the wrapped call runs execSync
inside a Promise executor with an extra callback argument that execSync
ignores and never invokes.  A synchronous throw rejects the promise;
otherwise the promise can never settle.  The call itself always returns
normally, handing back the promise. -/
def exec (fails : String → Bool) (cmd : String) : List Event × PromiseState :=
  let r := execSync fails cmd
  (r.1,
   match r.2 with
   | Except.ok _ => PromiseState.pending
   | Except.error _ => PromiseState.rejected)

/-- The arrow function `({packageName, version}) => { exec(...); }`: it
calls exec on the interpolated command and, having a block body with no
return statement, evaluates to undefined.  The components are (events
emitted, state of the discarded promise, value returned to map). -/
def mapCallback (fails : String → Bool) (tag : String) (e : PublishSummaryEntry) :
    List Event × PromiseState × JsUndefined :=
  let r := exec fails (commandString e.packageName e.version tag)
  (r.1, r.2, JsUndefined.undef)

/-- Promise.all over an array of plain (non-promise) values: resolves
immediately with those values. -/
def promiseAll (vs : List JsUndefined) : Except RunError (List JsUndefined) :=
  Except.ok vs

/-- `async function main(tag)`: read and parse the summary file, then map
the exec-invoking callback over the entries and await Promise.all of the
returned (undefined) values.  The result is the trace of external actions
together with the settled state of the promise returned by main. -/
def main (baseDir : List String) (tag : String) (file : SummaryFile)
    (fails : String → Bool) : List Event × Except RunError Unit :=
  match file with
  | SummaryFile.unreadable =>
      ([Event.readFile (summaryPath baseDir)], Except.error RunError.summaryRead)
  | SummaryFile.invalidJson =>
      ([Event.readFile (summaryPath baseDir)], Except.error RunError.summaryParse)
  | SummaryFile.json entries =>
      let results := entries.map (mapCallback fails tag)
      let evs := (results.map (fun r => r.1)).flatten
      match promiseAll (results.map (fun r => r.2.2)) with
      | Except.ok _ =>
          (Event.readFile (summaryPath baseDir) :: evs, Except.ok ())
      | Except.error e =>
          (Event.readFile (summaryPath baseDir) :: evs, Except.error e)

/-- The message of the top-level throw when the tag option is missing. -/
def missingTagMessage : String := "Required option `tag` not specified"

/-- The whole script run: commander yields the `--tag` value when supplied
(undefined otherwise, and the empty string is possible); `if (!tag)`
throws for undefined and for the empty string, before main is ever
called; otherwise the run is main(tag). -/
def script (baseDir : List String) (tagOpt : Option String) (file : SummaryFile)
    (fails : String → Bool) : List Event × Except RunError Unit :=
  match tagOpt with
  | none => ([], Except.error (RunError.thrownError missingTagMessage))
  | some t =>
      if t = "" then ([], Except.error (RunError.thrownError missingTagMessage))
      else main baseDir t file fails

/-- The shell commands spawned in a trace, in initiation order. -/
def spawnCmds (evs : List Event) : List String :=
  evs.filterMap (fun ev =>
    match ev with
    | Event.spawn c => some c
    | _ => none)

/-- The file paths read in a trace, in order. -/
def readPaths (evs : List Event) : List String :=
  evs.filterMap (fun ev =>
    match ev with
    | Event.readFile p => some p
    | _ => none)

/-- The environment variables read in a trace, in order. -/
def envReads (evs : List Event) : List String :=
  evs.filterMap (fun ev =>
    match ev with
    | Event.readEnv n => some n
    | _ => none)

/-! Helper lemmas about the trace of main. -/

theorem spawnCmds_append (a b : List Event) :
    spawnCmds (a ++ b) = spawnCmds a ++ spawnCmds b :=
  List.filterMap_append ..

theorem readPaths_append (a b : List Event) :
    readPaths (a ++ b) = readPaths a ++ readPaths b :=
  List.filterMap_append ..

theorem envReads_append (a b : List Event) :
    envReads (a ++ b) = envReads a ++ envReads b :=
  List.filterMap_append ..

theorem main_json_eq (baseDir : List String) (tag : String)
    (entries : List PublishSummaryEntry) (fails : String → Bool) :
    main baseDir tag (SummaryFile.json entries) fails
      = (Event.readFile (summaryPath baseDir) ::
          ((entries.map (mapCallback fails tag)).map (fun r => r.1)).flatten,
         Except.ok ()) := rfl

theorem spawnCmds_entries (fails : String → Bool) (tag : String)
    (entries : List PublishSummaryEntry) :
    spawnCmds (((entries.map (mapCallback fails tag)).map (fun r => r.1)).flatten)
      = entries.map (fun e => commandString e.packageName e.version tag) := by
  induction entries with
  | nil => rfl
  | cons e es ih =>
      simp only [List.map_cons, List.flatten_cons, spawnCmds_append, ih]
      rfl

theorem readPaths_entries (fails : String → Bool) (tag : String)
    (entries : List PublishSummaryEntry) :
    readPaths (((entries.map (mapCallback fails tag)).map (fun r => r.1)).flatten)
      = [] := by
  induction entries with
  | nil => rfl
  | cons e es ih =>
      simp only [List.map_cons, List.flatten_cons, readPaths_append, ih]
      rfl

theorem envReads_entries (fails : String → Bool) (tag : String)
    (entries : List PublishSummaryEntry) :
    envReads (((entries.map (mapCallback fails tag)).map (fun r => r.1)).flatten)
      = [] := by
  induction entries with
  | nil => rfl
  | cons e es ih =>
      simp only [List.map_cons, List.flatten_cons, envReads_append, ih]
      rfl

theorem spawnCmds_main_json (baseDir : List String) (tag : String)
    (entries : List PublishSummaryEntry) (fails : String → Bool) :
    spawnCmds (main baseDir tag (SummaryFile.json entries) fails).1
      = entries.map (fun e => commandString e.packageName e.version tag) := by
  rw [main_json_eq]
  show spawnCmds (((entries.map (mapCallback fails tag)).map (fun r => r.1)).flatten)
    = entries.map (fun e => commandString e.packageName e.version tag)
  exact spawnCmds_entries ..

theorem urlStep_up (acc : List String) : urlStep acc ".." = acc.dropLast := rfl

theorem urlStep_name (acc : List String) :
    urlStep acc "lerna-publish-summary.json" = acc ++ ["lerna-publish-summary.json"] := rfl

theorem summaryPath_eq (baseDir : List String) :
    summaryPath baseDir = pathString (baseDir ++ ["lerna-publish-summary.json"]) := by
  have h2 : (baseDir ++ ["scripts", "tag-release.mjs"]).dropLast
      = baseDir ++ ["scripts"] := by
    rw [show baseDir ++ ["scripts", "tag-release.mjs"]
        = (baseDir ++ ["scripts"]) ++ ["tag-release.mjs"] from by simp]
    exact List.dropLast_concat ..
  have h3 : (baseDir ++ ["scripts"]).dropLast = baseDir := List.dropLast_concat ..
  show pathString (urlStep (urlStep
      ((baseDir ++ ["scripts", "tag-release.mjs"]).dropLast) "..")
      "lerna-publish-summary.json") = _
  rw [h2, urlStep_up, h3, urlStep_name]

/-! The claims. -/

/-- Claim C1: for every publish-summary array and tag, the runner spawns
exactly one registry invocation `npm dist-tag add <name>@<version> <tag>`
per entry -- the spawned-command list equals the entrywise command map, so
there are no duplicates and no omissions; in particular the two-entry
summary [pkg-a 1.0.0, pkg-b 2.3.1] with tag "latest" yields exactly the
two expected invocations. -/
theorem c1_one_invocation_per_entry :
    (∀ (baseDir : List String) (tag : String) (entries : List PublishSummaryEntry)
        (fails : String → Bool),
      spawnCmds (main baseDir tag (SummaryFile.json entries) fails).1
        = entries.map (fun e => commandString e.packageName e.version tag))
    ∧ spawnCmds (main ["repo"] "latest"
        (SummaryFile.json
          [⟨some "pkg-a", some "1.0.0"⟩, ⟨some "pkg-b", some "2.3.1"⟩])
        (fun _ => false)).1
      = ["npm dist-tag add pkg-a@1.0.0 latest",
         "npm dist-tag add pkg-b@2.3.1 latest"] := by
  refine ⟨fun baseDir tag entries fails => spawnCmds_main_json .., ?_⟩
  decide

/-- Claim C2 is false of the code: `exec` is `promisify(execSync)`, and
execSync blocks until the spawned child has completed, so on the two-entry
example the completion of the first command is observed strictly before
the second spawn is initiated (trace positions 2 and 3).  The runner
therefore does wait for each invocation to complete between spawns,
contradicting the claimed fire-and-forget fan-out. -/
theorem c2_counterexample_blocking_between_spawns :
    (main ["repo"] "latest"
        (SummaryFile.json
          [⟨some "pkg-a", some "1.0.0"⟩, ⟨some "pkg-b", some "2.3.1"⟩])
        (fun _ => false)).1
      = [Event.readFile "/repo/lerna-publish-summary.json",
         Event.spawn "npm dist-tag add pkg-a@1.0.0 latest",
         Event.complete "npm dist-tag add pkg-a@1.0.0 latest" true,
         Event.spawn "npm dist-tag add pkg-b@2.3.1 latest",
         Event.complete "npm dist-tag add pkg-b@2.3.1 latest" true]
    ∧ ((main ["repo"] "latest"
        (SummaryFile.json
          [⟨some "pkg-a", some "1.0.0"⟩, ⟨some "pkg-b", some "2.3.1"⟩])
        (fun _ => false)).1)[2]?
      = some (Event.complete "npm dist-tag add pkg-a@1.0.0 latest" true)
    ∧ ((main ["repo"] "latest"
        (SummaryFile.json
          [⟨some "pkg-a", some "1.0.0"⟩, ⟨some "pkg-b", some "2.3.1"⟩])
        (fun _ => false)).1)[3]?
      = some (Event.spawn "npm dist-tag add pkg-b@2.3.1 latest") := by
  refine ⟨?_, ?_, ?_⟩ <;> decide

/-- Claim C3: which commands an external failure hits never changes the
runner: the spawned-command list is the same under any two failure
patterns (so a failing entry does not prevent the remaining invocations),
and the promise returned by main resolves successfully regardless of
failures -- execSync throws inside the promisify executor, which only
rejects the discarded promise, so no failure is observed, surfaced, or
allowed to alter control flow. -/
theorem c3_command_failures_unobserved :
    ∀ (baseDir : List String) (tag : String) (entries : List PublishSummaryEntry)
      (fails fails' : String → Bool),
      spawnCmds (main baseDir tag (SummaryFile.json entries) fails).1
        = spawnCmds (main baseDir tag (SummaryFile.json entries) fails').1
      ∧ (main baseDir tag (SummaryFile.json entries) fails).2 = Except.ok () := by
  intro baseDir tag entries fails fails'
  refine ⟨?_, rfl⟩
  rw [spawnCmds_main_json, spawnCmds_main_json]

/-- Claim C4: when the --tag option is absent (undefined) or the empty
string, the run throws `Required option `tag` not specified` -- an error
naming the missing option, a non-zero exit -- with an empty trace: the
summary file has not been read and no external command has been issued. -/
theorem c4_missing_tag_fails_fast :
    ∀ (baseDir : List String) (file : SummaryFile) (fails : String → Bool),
      script baseDir none file fails
        = ([], Except.error
            (RunError.thrownError "Required option `tag` not specified"))
      ∧ script baseDir (some "") file fails
        = ([], Except.error
            (RunError.thrownError "Required option `tag` not specified"))
      ∧ readPaths (script baseDir none file fails).1 = []
      ∧ spawnCmds (script baseDir none file fails).1 = [] :=
  fun _ _ _ => ⟨rfl, rfl, rfl, rfl⟩

/-- Claim C5: an unreadable summary file makes the run fail with the
propagated read error, and a file that is not valid JSON with the parse
error (non-zero exit either way), in both cases after the single read and
before any invocation: the trace carries zero spawn events. -/
theorem c5_summary_errors_fail_before_any_invocation :
    ∀ (baseDir : List String) (tag : String) (fails : String → Bool),
      main baseDir tag SummaryFile.unreadable fails
        = ([Event.readFile (summaryPath baseDir)], Except.error RunError.summaryRead)
      ∧ main baseDir tag SummaryFile.invalidJson fails
        = ([Event.readFile (summaryPath baseDir)], Except.error RunError.summaryParse)
      ∧ spawnCmds (main baseDir tag SummaryFile.unreadable fails).1 = []
      ∧ spawnCmds (main baseDir tag SummaryFile.invalidJson fails).1 = [] :=
  fun _ _ _ => ⟨rfl, rfl, rfl, rfl⟩

/-- Claim C6: on the empty summary array the runner issues zero external
invocations and still finishes successfully, both as main (the runner) and
as the whole script run with a concrete tag. -/
theorem c6_empty_summary_zero_invocations_success :
    ∀ (baseDir : List String) (tag : String) (fails : String → Bool),
      spawnCmds (main baseDir tag (SummaryFile.json []) fails).1 = []
      ∧ (main baseDir tag (SummaryFile.json []) fails).2 = Except.ok ()
      ∧ script baseDir (some "latest") (SummaryFile.json []) fails
        = ([Event.readFile (summaryPath baseDir)], Except.ok ()) :=
  fun _ _ _ => ⟨rfl, rfl, rfl⟩

/-- Claim C7: every run of the runner reads exactly one file, namely
`lerna-publish-summary.json` one directory above the script (the
repository directory), whatever the file contains, and reads no
environment variable. -/
theorem c7_single_fixed_read_no_env :
    ∀ (baseDir : List String) (tag : String) (file : SummaryFile)
      (fails : String → Bool),
      readPaths (main baseDir tag file fails).1
        = [pathString (baseDir ++ ["lerna-publish-summary.json"])]
      ∧ envReads (main baseDir tag file fails).1 = [] := by
  intro baseDir tag file fails
  cases file with
  | unreadable => exact ⟨by rw [← summaryPath_eq]; rfl, rfl⟩
  | invalidJson => exact ⟨by rw [← summaryPath_eq]; rfl, rfl⟩
  | json entries =>
      rw [main_json_eq]
      constructor
      · show summaryPath baseDir ::
          readPaths (((entries.map (mapCallback fails tag)).map (fun r => r.1)).flatten)
            = _
        rw [readPaths_entries, summaryPath_eq]
      · show envReads
          (((entries.map (mapCallback fails tag)).map (fun r => r.1)).flatten) = _
        rw [envReads_entries]

/-- Claim C8: the map callback returns undefined for every entry (the
promise made by exec is discarded inside its body), main resolves with
success whatever the failure pattern, and under a failure pattern where
every command fails each discarded promise is rejected -- yet main still
resolves, so no rejection is ever awaited by main. -/
theorem c8_promises_discarded_result_independent :
    ∀ (baseDir : List String) (tag : String) (entries : List PublishSummaryEntry)
      (fails : String → Bool),
      (∀ e, (mapCallback fails tag e).2.2 = JsUndefined.undef)
      ∧ (main baseDir tag (SummaryFile.json entries) fails).2 = Except.ok ()
      ∧ (∀ e, (mapCallback (fun _ => true) tag e).2.1 = PromiseState.rejected)
      ∧ (main baseDir tag (SummaryFile.json entries) (fun _ => true)).2
          = Except.ok () :=
  fun _ _ _ _ => ⟨fun _ => rfl, rfl, fun _ => rfl, rfl⟩

/-- Claim C9: the command handed to the shell is the literal concatenation
"npm dist-tag add " ++ packageName ++ "@" ++ version ++ " " ++ tag, for
arbitrary strings (shell metacharacters included) with no escaping,
quoting, or validation, both as the interpolation function and as the
command actually spawned for a singleton summary. -/
theorem c9_command_is_literal_concatenation :
    ∀ (baseDir : List String) (pn v tag : String) (fails : String → Bool),
      spawnCmds (main baseDir tag
          (SummaryFile.json [⟨some pn, some v⟩]) fails).1
        = ["npm dist-tag add " ++ pn ++ "@" ++ v ++ " " ++ tag]
      ∧ commandString (some pn) (some v) tag
        = "npm dist-tag add " ++ pn ++ "@" ++ v ++ " " ++ tag := by
  intro baseDir pn v tag fails
  refine ⟨?_, rfl⟩
  rw [spawnCmds_main_json]
  rfl

/-- Claim C10: an entry lacking the packageName field, the version field,
or both still produces exactly one spawned invocation, with the text
"undefined" interpolated in place of each missing field, and the run still
resolves successfully instead of failing before the spawn. -/
theorem c10_missing_fields_interpolate_undefined :
    ∀ (baseDir : List String) (tag pn v : String) (fails : String → Bool),
      spawnCmds (main baseDir tag
          (SummaryFile.json [⟨none, some v⟩]) fails).1
        = ["npm dist-tag add " ++ "undefined" ++ "@" ++ v ++ " " ++ tag]
      ∧ spawnCmds (main baseDir tag
          (SummaryFile.json [⟨some pn, none⟩]) fails).1
        = ["npm dist-tag add " ++ pn ++ "@" ++ "undefined" ++ " " ++ tag]
      ∧ spawnCmds (main baseDir tag
          (SummaryFile.json [⟨none, none⟩]) fails).1
        = ["npm dist-tag add " ++ "undefined" ++ "@" ++ "undefined" ++ " " ++ tag]
      ∧ (main baseDir tag (SummaryFile.json [⟨none, none⟩]) fails).2
          = Except.ok () := by
  intro baseDir tag pn v fails
  refine ⟨?_, ?_, ?_, rfl⟩ <;> rw [spawnCmds_main_json] <;> rfl

end TagRelease
